import Mathlib

/-!
Shallow embedding of scripts/show-tempo-ramp.py.

The script reads a CSV file (pandas read_csv), adds a line trace of
(time, value), computes speed = np.diff(df.value.values), adds a second
line trace of (time[:-1], speed), and shows the figure.

The embedding models CSV cells the way pandas infers mixed columns: each
raw text cell is parsed individually; cells that read as integer literals
become numbers, every other cell stays a raw string.  (The claims only
involve integer data, so numeric cells are modelled with Int.)  The script
has no error handling of its own, so failures are the Python exceptions
the libraries raise; they are modelled with an explicit error type.  The
program is a straight line: argv lookup, file read, trace 1, diff,
trace 2, show.  Side effects (the file read and the display call) are
recorded in an explicit effect list.
-/

namespace RabidRobot

/-- A cell of a loaded column: pandas keeps integer-looking entries as
numbers and leaves anything else (such as "abc") as the raw string. -/
inductive Cell where
  | num (n : Int)
  | str (s : String)
deriving DecidableEq, Repr

/-- Whether a cell is numeric. -/
def Cell.isNum : Cell → Bool
  | .num _ => true
  | .str _ => false

/-- Value of a list of decimal digit characters. -/
def digitsToNat (cs : List Char) : Nat :=
  cs.foldl (fun a c => 10 * a + (c.toNat - Char.toNat '0')) 0

/-- Parse a raw text cell as an integer literal (optional leading minus
sign, then decimal digits); none when the cell is not numeric. -/
def parseNumStr (s : String) : Option Int :=
  match s.toList with
  | [] => none
  | '-' :: rest =>
      if !rest.isEmpty && rest.all Char.isDigit then
        some (-(digitsToNat rest : Int))
      else none
  | c :: rest =>
      if (c :: rest).all Char.isDigit then
        some ((digitsToNat (c :: rest) : Int))
      else none

/-- Per-cell type inference performed by read_csv on a column that is not
fully numeric: numeric-looking text becomes a number, the rest stays a
string. -/
def parseCell (s : String) : Cell :=
  match parseNumStr s with
  | some n => .num n
  | none => .str s

/-- A CSV file: a header row of column names and the data rows, each a
list of raw text cells. -/
structure CsvFile where
  header : List String
  rows : List (List String)
deriving DecidableEq

/-- A loaded data frame: association list from column name to the parsed
column, in header order. -/
abbrev DataFrame := List (String × List Cell)

/-- First-match association-list lookup over string keys (models both the
filesystem path lookup and data-frame attribute access). -/
def lookupStr {β : Type} (k : String) : List (String × β) → Option β
  | [] => none
  | (a, b) :: rest => if a = k then some b else lookupStr k rest

/-- Column j of the file, parsed cell by cell, one entry per data row in
row order (missing trailing cells read as empty text). -/
def columnOf (f : CsvFile) (j : Nat) : List Cell :=
  f.rows.map (fun r => parseCell ((r.get? j).getD ""))

/-- Build the frame columns for the given header names, starting at
column index j. -/
def readCsvAux (f : CsvFile) : List String → Nat → DataFrame
  | [], _ => []
  | h :: hs, j => (h, columnOf f j) :: readCsvAux f hs (j + 1)

/-- pd.read_csv on an already-fetched file: one parsed column per header
name.  read_csv performs no validation of column names or cell contents. -/
def readCsv (f : CsvFile) : DataFrame :=
  readCsvAux f f.header 0

/-- The Python exceptions the script can die with: sys.argv[1] on a short
argv (IndexError), read_csv on a missing path (FileNotFoundError),
df.time / df.value on a missing column (AttributeError), np.diff on a
string cell (TypeError), fig.show with no backend. -/
inductive PyErr where
  | indexError
  | fileNotFound
  | attributeError
  | typeError
  | renderError
deriving DecidableEq, Repr

/-- The program environment: the filesystem (path to CSV file) and
whether a display backend is available for fig.show. -/
structure Env where
  files : List (String × CsvFile)
  displayAvailable : Bool

/-- pd.read_csv(path): FileNotFoundError when the path does not exist,
otherwise the parsed frame.  No column or cell validation happens here. -/
def readCsvE (env : Env) (path : String) : Except PyErr DataFrame :=
  match lookupStr path env.files with
  | some f => .ok (readCsv f)
  | none => .error .fileNotFound

/-- Attribute access df.name: AttributeError when no such column. -/
def getCol (df : DataFrame) (name : String) : Except PyErr (List Cell) :=
  match lookupStr name df with
  | some col => .ok col
  | none => .error .attributeError

/-- Elementwise subtraction inside np.diff: defined on two numeric cells,
TypeError when either operand is a string. -/
def subCell : Cell → Cell → Except PyErr Int
  | .num a, .num b => .ok (a - b)
  | _, _ => .error .typeError

/-- np.diff(values): adjacent differences values[i+1] - values[i].  On
fewer than two entries the result is empty and nothing is subtracted, so
even a lone string cell raises nothing. -/
def diffCells : List Cell → Except PyErr (List Int)
  | a :: b :: rest => do
      let d ← subCell b a
      let ds ← diffCells (b :: rest)
      pure (d :: ds)
  | _ => .ok []

/-- One plotly scatter trace. -/
structure Trace where
  x : List Cell
  y : List Cell
  mode : String
deriving DecidableEq

/-- A plotly figure: the ordered list of its traces (the script
configures no axes, so both traces share the single default x-axis). -/
structure Figure where
  traces : List Trace
deriving DecidableEq

/-- Observable side effects of a program run: the attempted file read and
the display of the finished figure. -/
inductive Effect where
  | readFile (path : String)
  | display (fig : Figure)
deriving DecidableEq

/-- The script body, given the result of sys.argv[1]: read the CSV, add
the (time, value) line trace, compute speed = np.diff(value), add the
(time[:-1], speed) line trace, show the figure.  Returns the effect list
and either success or the uncaught exception. -/
def runPath (pathOpt : Option String) (env : Env) :
    List Effect × Except PyErr Unit :=
  match pathOpt with
  | none => ([], .error .indexError)
  | some path =>
    match readCsvE env path with
    | .error e => ([.readFile path], .error e)
    | .ok df =>
      match getCol df "time" with
      | .error e => ([.readFile path], .error e)
      | .ok time =>
        match getCol df "value" with
        | .error e => ([.readFile path], .error e)
        | .ok value =>
          match diffCells value with
          | .error e => ([.readFile path], .error e)
          | .ok speed =>
            let fig : Figure :=
              ⟨[⟨time, value, "lines"⟩,
                ⟨time.dropLast, speed.map Cell.num, "lines"⟩]⟩
            if env.displayAvailable then
              ([.readFile path, .display fig], .ok ())
            else
              ([.readFile path], .error .renderError)

/-- The whole program: the only use of argv is sys.argv[1] on line 7. -/
def run (argv : List String) (env : Env) : List Effect × Except PyErr Unit :=
  runPath (argv.get? 1) env

/-- The diagnostic the interpreter prints to stderr for each uncaught
exception. -/
def errMsg : PyErr → String
  | .indexError => "IndexError: list index out of range"
  | .fileNotFound => "FileNotFoundError: no such file or directory"
  | .attributeError => "AttributeError: no such column"
  | .typeError => "TypeError: unsupported operand type(s) for -"
  | .renderError => "Error: no display backend available"

/-- Process exit code: 0 on success, 1 when an exception escapes. -/
def exitCode (argv : List String) (env : Env) : Nat :=
  match (run argv env).2 with
  | .ok _ => 0
  | .error _ => 1

/-- Standard-error output of the process: empty on success, the
diagnostic of the uncaught exception otherwise. -/
def stderrOut (argv : List String) (env : Env) : String :=
  match (run argv env).2 with
  | .ok _ => ""
  | .error e => errMsg e

deriving instance DecidableEq for Except

/-! Sample environments used to instantiate the theorems. -/

/-- The round-trip sample table: time 0..4, value [10, 12, 9, 9, 15]. -/
def fileA : CsvFile :=
  ⟨["time", "value"],
   [["0", "10"], ["1", "12"], ["2", "9"], ["3", "9"], ["4", "15"]]⟩

/-- Filesystem holding the sample table, display backend available. -/
def envA : Env := ⟨[("data.csv", fileA)], true⟩

/-- Command line naming the sample table. -/
def argvA : List String := ["show-tempo-ramp.py", "data.csv"]

/-- The figure the script displays for the sample table. -/
def figA : Figure :=
  ⟨[⟨[.num 0, .num 1, .num 2, .num 3, .num 4],
     [.num 10, .num 12, .num 9, .num 9, .num 15], "lines"⟩,
    ⟨[.num 0, .num 1, .num 2, .num 3],
     [.num 2, .num (-3), .num 0, .num 6], "lines"⟩]⟩

/-- A single-row table: value column [5]. -/
def fileB : CsvFile := ⟨["time", "value"], [["0", "5"]]⟩

/-- Filesystem holding the single-row table. -/
def envB : Env := ⟨[("one.csv", fileB)], true⟩

/-- Command line naming the single-row table. -/
def argvB : List String := ["show-tempo-ramp.py", "one.csv"]

/-- The figure for the single-row table: the rate trace has no points. -/
def figB : Figure :=
  ⟨[⟨[.num 0], [.num 5], "lines"⟩, ⟨[], [], "lines"⟩]⟩

/-- A table with the non-numeric entry "abc" in the value column. -/
def fileC : CsvFile :=
  ⟨["time", "value"], [["0", "10"], ["1", "abc"], ["2", "9"]]⟩

/-- Filesystem holding the non-numeric table. -/
def envC : Env := ⟨[("bad.csv", fileC)], true⟩

/-- Command line naming the non-numeric table. -/
def argvC : List String := ["show-tempo-ramp.py", "bad.csv"]

/-- A table that lacks a value column. -/
def fileD : CsvFile := ⟨["time", "x"], [["0", "1"], ["1", "2"]]⟩

/-- Filesystem holding only the table without a value column. -/
def envD : Env := ⟨[("nov.csv", fileD)], true⟩

/-- Command line naming the table without a value column. -/
def argvD : List String := ["show-tempo-ramp.py", "nov.csv"]

/-! Helper lemmas about the differencer. -/

/-- On a fully numeric column, np.diff is the zipWith of subtraction of
the tail against the list itself. -/
theorem diffCells_map_num : ∀ l : List Int,
    diffCells (l.map Cell.num) =
      .ok (List.zipWith (fun a b => a - b) l.tail l)
  | [] => rfl
  | [_] => rfl
  | a :: b :: rest => by
      have ih := diffCells_map_num (b :: rest)
      simp only [List.map_cons] at ih ⊢
      simp only [diffCells, ih]
      rfl

/-- Entry i of the adjacent-difference list is value[i+1] - value[i]. -/
theorem zipWith_sub_get? : ∀ (l : List Int) (i : Nat), i + 1 < l.length →
    (List.zipWith (fun a b => a - b) l.tail l).get? i =
      some (l.getD (i + 1) 0 - l.getD i 0)
  | [], i, h => by simp at h
  | [_], i, h => by simp at h
  | _ :: _ :: _, 0, _ => by simp [List.getD]
  | a :: b :: rest, i + 1, h => by
      have ih := zipWith_sub_get? (b :: rest) i (by simp at h ⊢; omega)
      simp only [List.tail_cons] at ih ⊢
      simpa [List.getD] using ih

/-- The adjacent-difference list has one entry fewer than the column. -/
theorem zipWith_sub_length (l : List Int) :
    (List.zipWith (fun a b => a - b) l.tail l).length = l.length - 1 := by
  rw [List.length_zipWith, List.length_tail]
  omega

/-- Python l[:-1] keeps every entry except the last, in place: entry i of
dropLast is entry i of the list, for i below length - 1. -/
theorem dropLast_get? {α : Type} : ∀ (l : List α) (i : Nat),
    i + 1 < l.length → l.dropLast.get? i = l.get? i
  | [], i, h => by simp at h
  | [_], i, h => by simp at h
  | a :: b :: rest, 0, _ => by simp
  | a :: b :: rest, i + 1, h => by
      have ih := dropLast_get? (b :: rest) i (by simp at h ⊢; omega)
      simpa using ih

/-- A column that contains a string cell among at least two entries makes
np.diff raise a TypeError: the string takes part in a subtraction. -/
theorem diffCells_str_err : ∀ cells : List Cell,
    (∃ c ∈ cells, c.isNum = false) → 2 ≤ cells.length →
    diffCells cells = .error .typeError
  | [], _, hlen => by simp at hlen
  | [_], _, hlen => by simp at hlen
  | a :: b :: rest, hex, _ => by
      cases a with
      | str s => cases b <;> rfl
      | num na =>
        cases b with
        | str s => rfl
        | num nb =>
          have hrest : ∃ c ∈ rest, c.isNum = false := by
            rcases hex with ⟨c, hc, hcn⟩
            rcases List.mem_cons.mp hc with rfl | hc2
            · simp [Cell.isNum] at hcn
            rcases List.mem_cons.mp hc2 with rfl | hc3
            · simp [Cell.isNum] at hcn
            exact ⟨c, hc3, hcn⟩
          have hne : rest ≠ [] := by
            rcases hrest with ⟨c, hc, _⟩
            intro hcon; subst hcon; simp at hc
          have ih := diffCells_str_err (Cell.num nb :: rest)
            (by rcases hrest with ⟨c, hc, hcn⟩
                exact ⟨c, List.mem_cons_of_mem _ hc, hcn⟩)
            (by cases rest with
                | nil => exact absurd rfl hne
                | cons x xs => simp)
          simp only [diffCells, ih]
          rfl

/-! Helper lemmas about loading and column lookup. -/

/-- Lookup misses when the key is not among the first components. -/
theorem lookupStr_eq_none {β : Type} (k : String) : ∀ l : List (String × β),
    k ∉ l.map Prod.fst → lookupStr k l = none
  | [], _ => rfl
  | (a, b) :: rest, h => by
      simp only [List.map_cons, List.mem_cons, not_or] at h
      have hne : ¬a = k := fun hak => h.1 hak.symm
      simp only [lookupStr, if_neg hne]
      exact lookupStr_eq_none k rest h.2

/-- The column names of a loaded frame are exactly the header names. -/
theorem readCsvAux_keys (f : CsvFile) : ∀ (hs : List String) (j : Nat),
    (readCsvAux f hs j).map Prod.fst = hs
  | [], _ => rfl
  | h0 :: hs, j => by
      simp only [readCsvAux, List.map_cons]
      rw [readCsvAux_keys f hs (j + 1)]

/-- A successful column lookup returns a column of the file itself: the
parsed column at the header position of the name. -/
theorem lookupStr_readCsvAux (f : CsvFile) :
    ∀ (hs : List String) (j : Nat) (name : String) (col : List Cell),
    lookupStr name (readCsvAux f hs j) = some col →
    ∃ k, hs.get? k = some name ∧ col = columnOf f (j + k)
  | [], _, _, _, h => by simp [readCsvAux, lookupStr] at h
  | h0 :: hs, j, name, col, h => by
      by_cases he : h0 = name
      · refine ⟨0, by simp [he], ?_⟩
        simp only [readCsvAux, lookupStr, if_pos he, Option.some.injEq] at h
        simp [h.symm]
      · simp only [readCsvAux, lookupStr, if_neg he] at h
        obtain ⟨k, hk1, hk2⟩ := lookupStr_readCsvAux f hs (j + 1) name col h
        refine ⟨k + 1, by simpa using hk1, ?_⟩
        rw [hk2, show j + 1 + k = j + (k + 1) by omega]

/-- Attribute access only ever fails with an AttributeError. -/
theorem getCol_err (df : DataFrame) (name : String) (e : PyErr)
    (h : getCol df name = .error e) : e = .attributeError := by
  unfold getCol at h
  cases hl : lookupStr name df with
  | none =>
      simp only [hl] at h
      exact (Except.error.inj h).symm
  | some c =>
      simp [hl] at h

/-- A frame loaded from a file without a value column has no value
attribute. -/
theorem getCol_value_missing (f : CsvFile) (hnv : "value" ∉ f.header) :
    getCol (readCsv f) "value" = .error .attributeError := by
  unfold getCol readCsv
  rw [lookupStr_eq_none _ _ (by rw [readCsvAux_keys]; exact hnv)]

/-- A successful value-column access on a loaded frame returns a parsed
column of the file, at the header position of the column name. -/
theorem getCol_readCsv_ok (f : CsvFile) (name : String) (col : List Cell)
    (h : getCol (readCsv f) name = .ok col) :
    ∃ k, f.header.get? k = some name ∧ col = columnOf f k := by
  unfold getCol readCsv at h
  cases hl : lookupStr name (readCsvAux f f.header 0) with
  | none => simp [hl] at h
  | some c =>
      simp only [hl] at h
      obtain ⟨k, hk1, hk2⟩ := lookupStr_readCsvAux f f.header 0 name c hl
      have hc : c = col := Except.ok.inj h
      exact ⟨k, hk1, by rw [← hc, hk2]; simp⟩

/-! The shape of a run that reaches the display call. -/

/-- Any displayed figure comes from a complete successful pipeline: the
path was read, both columns were found, the diff succeeded, a backend
was available, and the figure is exactly the two line traces the script
builds. -/
theorem run_display_shape (argv : List String) (env : Env) (fig : Figure)
    (hmem : Effect.display fig ∈ (run argv env).1) :
    ∃ path df time value speed,
      argv.get? 1 = some path ∧
      readCsvE env path = .ok df ∧
      getCol df "time" = .ok time ∧
      getCol df "value" = .ok value ∧
      diffCells value = .ok speed ∧
      env.displayAvailable = true ∧
      fig = ⟨[⟨time, value, "lines"⟩,
              ⟨time.dropLast, speed.map Cell.num, "lines"⟩]⟩ ∧
      run argv env = ([.readFile path, .display fig], .ok ()) := by
  unfold run runPath at hmem ⊢
  cases h1 : argv.get? 1 with
  | none =>
      simp only [h1] at hmem
      simp at hmem
  | some path =>
    simp only [h1] at hmem
    cases h2 : readCsvE env path with
    | error e => simp [h2] at hmem
    | ok df =>
      simp only [h2] at hmem
      cases h3 : getCol df "time" with
      | error e => simp [h3] at hmem
      | ok time =>
        simp only [h3] at hmem
        cases h4 : getCol df "value" with
        | error e => simp [h4] at hmem
        | ok value =>
          simp only [h4] at hmem
          cases h5 : diffCells value with
          | error e => simp [h5] at hmem
          | ok speed =>
            simp only [h5] at hmem
            cases h6 : env.displayAvailable with
            | false => simp [h6] at hmem
            | true =>
              simp [h6] at hmem
              subst hmem
              exact ⟨path, df, time, value, speed, rfl, h2, h3, h4, h5,
                rfl, rfl, by simp [h2, h3, h4, h5]⟩

/-- A run that returns success reached the display: its effect list is
the file read followed by the display of the finished figure. -/
theorem run_ok_shape (argv : List String) (env : Env)
    (hok : (run argv env).2 = .ok ()) :
    ∃ path fig,
      run argv env = ([.readFile path, .display fig], .ok ()) := by
  unfold run runPath at hok ⊢
  cases h1 : argv.get? 1 with
  | none =>
      simp only [h1] at hok
      simp at hok
  | some path =>
    simp only [h1] at hok
    cases h2 : readCsvE env path with
    | error e => simp [h2] at hok
    | ok df =>
      simp only [h2] at hok
      cases h3 : getCol df "time" with
      | error e => simp [h3] at hok
      | ok time =>
        simp only [h3] at hok
        cases h4 : getCol df "value" with
        | error e => simp [h4] at hok
        | ok value =>
          simp only [h4] at hok
          cases h5 : diffCells value with
          | error e => simp [h5] at hok
          | ok speed =>
            simp only [h5] at hok
            cases h6 : env.displayAvailable with
            | false => simp [h6] at hok
            | true =>
              exact ⟨path, ⟨[⟨time, value, "lines"⟩,
                ⟨time.dropLast, speed.map Cell.num, "lines"⟩]⟩,
                by simp [h2, h3, h4, h5]⟩

/-! The claims. -/

/-- Claim C1: for every valid input table whose value column has N ≥ 2
numeric entries, the derived rate sequence computed by the differencer
has exactly N - 1 elements and rate[i] equals value[i+1] - value[i] for
every i in 0..N-2, with no normalization by elapsed time (the difference
is taken index-wise, the time column plays no part). -/
theorem claim_C1_rate_diff (l : List Int) (h : 2 ≤ l.length) :
    ∃ r, diffCells (l.map Cell.num) = .ok r ∧
      r.length = l.length - 1 ∧
      ∀ i, i + 1 < l.length →
        r.get? i = some (l.getD (i + 1) 0 - l.getD i 0) :=
  ⟨List.zipWith (fun a b => a - b) l.tail l, diffCells_map_num l,
    zipWith_sub_length l, fun i hi => zipWith_sub_get? l i hi⟩

/-- Witness for C1 at value = [10, 12, 9, 9, 15]. -/
theorem claim_C1_witness :
    2 ≤ ([10, 12, 9, 9, 15] : List Int).length ∧
    ∃ r, diffCells (([10, 12, 9, 9, 15] : List Int).map Cell.num) = .ok r ∧
      r.length = ([10, 12, 9, 9, 15] : List Int).length - 1 ∧
      ∀ i, i + 1 < ([10, 12, 9, 9, 15] : List Int).length →
        r.get? i = some (([10, 12, 9, 9, 15] : List Int).getD (i + 1) 0 -
          ([10, 12, 9, 9, 15] : List Int).getD i 0) :=
  ⟨by decide, claim_C1_rate_diff [10, 12, 9, 9, 15] (by decide)⟩

/-- Claim C3: for value = [10, 12, 9, 9, 15] with time = [0, 1, 2, 3, 4],
the derived rate sequence equals [2, -3, 0, 6] and in the displayed
figure it is paired with times [0, 1, 2, 3]. -/
theorem claim_C3_concrete_roundtrip :
    diffCells (([10, 12, 9, 9, 15] : List Int).map Cell.num) =
      .ok [2, -3, 0, 6] ∧
    run argvA envA = ([.readFile "data.csv", .display figA], .ok ()) ∧
    figA.traces.get? 1 = some ⟨[.num 0, .num 1, .num 2, .num 3],
      [.num 2, .num (-3), .num 0, .num 6], "lines"⟩ :=
  ⟨by rfl, by rfl, by rfl⟩

/-- Claim C4: with fewer than two rows the derived rate sequence is empty
and neither the differencing step nor the rate-trace construction fails;
in particular for value = [5] the rate sequence is [] and the whole run
succeeds, displaying a rate trace with no points. -/
theorem claim_C4_short_empty :
    (∀ cells : List Cell, cells.length < 2 → diffCells cells = .ok []) ∧
    diffCells [Cell.num 5] = .ok [] ∧
    run argvB envB = ([.readFile "one.csv", .display figB], .ok ()) ∧
    figB.traces.get? 1 = some ⟨[], [], "lines"⟩ := by
  refine ⟨?_, by rfl, by rfl, by rfl⟩
  intro cells h
  cases cells with
  | nil => rfl
  | cons a t =>
    cases t with
    | nil => rfl
    | cons b r => simp [List.length_cons] at h; omega

/-- Witness for C4 at the single-cell column [5]. -/
theorem claim_C4_witness : diffCells [Cell.num 5] = .ok [] :=
  claim_C4_short_empty.1 [Cell.num 5] (by decide)

/-- Claim C9: invoked with fewer than two argv entries, the program fails
with the IndexError of the sys.argv[1] lookup and performs no effect at
all: the empty effect list means no file was opened and nothing was
displayed, for any state of the filesystem. -/
theorem claim_C9_no_arg_no_io (argv : List String) (env : Env)
    (h : argv.length < 2) :
    run argv env = ([], .error .indexError) := by
  unfold run
  rw [List.get?_eq_none.mpr (by omega)]
  rfl

/-- Witness for C9: program name alone, no input-file argument. -/
theorem claim_C9_witness :
    run ["show-tempo-ramp.py"] envA = ([], .error .indexError) :=
  claim_C9_no_arg_no_io ["show-tempo-ramp.py"] envA (by decide)

/-- Claim C2: in every displayed figure the rate trace pairs rate[i] with
time[i], the time of the starting sample of each interval: the x-values
of the second trace are exactly the time column with its last element
dropped, in the same order. -/
theorem claim_C2_rate_time_pairing (argv : List String) (env : Env)
    (fig : Figure) (hmem : Effect.display fig ∈ (run argv env).1) :
    ∃ path df time value,
      argv.get? 1 = some path ∧
      readCsvE env path = .ok df ∧
      getCol df "time" = .ok time ∧
      getCol df "value" = .ok value ∧
      (fig.traces.get? 1).map Trace.x = some time.dropLast ∧
      time.dropLast.length = time.length - 1 ∧
      ∀ i, i + 1 < time.length →
        time.dropLast.get? i = time.get? i := by
  obtain ⟨path, df, time, value, speed, h1, h2, h3, h4, h5, h6, hfig, hrun⟩ :=
    run_display_shape argv env fig hmem
  refine ⟨path, df, time, value, h1, h2, h3, h4, ?_, ?_, ?_⟩
  · rw [hfig]; rfl
  · exact List.length_dropLast time
  · exact fun i hi => dropLast_get? time i hi

/-- Witness for C2 on the sample table. -/
theorem claim_C2_witness :
    Effect.display figA ∈ (run argvA envA).1 ∧
    ∃ path df time value,
      argvA.get? 1 = some path ∧
      readCsvE envA path = .ok df ∧
      getCol df "time" = .ok time ∧
      getCol df "value" = .ok value ∧
      (figA.traces.get? 1).map Trace.x = some time.dropLast ∧
      time.dropLast.length = time.length - 1 ∧
      ∀ i, i + 1 < time.length →
        time.dropLast.get? i = time.get? i :=
  ⟨by decide, claim_C2_rate_time_pairing argvA envA figA (by decide)⟩

/-- Claim C7: every displayed figure contains exactly two traces, both in
line mode and on the single default shared x-axis, with the raw
(time, value) trace added first and the rate trace added second. -/
theorem claim_C7_two_line_traces (argv : List String) (env : Env)
    (fig : Figure) (hmem : Effect.display fig ∈ (run argv env).1) :
    fig.traces.length = 2 ∧
    (∀ t ∈ fig.traces, t.mode = "lines") ∧
    ∃ path df time value speed,
      argv.get? 1 = some path ∧
      readCsvE env path = .ok df ∧
      getCol df "time" = .ok time ∧
      getCol df "value" = .ok value ∧
      diffCells value = .ok speed ∧
      fig.traces.get? 0 = some ⟨time, value, "lines"⟩ ∧
      fig.traces.get? 1 =
        some ⟨time.dropLast, speed.map Cell.num, "lines"⟩ := by
  obtain ⟨path, df, time, value, speed, h1, h2, h3, h4, h5, h6, hfig, hrun⟩ :=
    run_display_shape argv env fig hmem
  subst hfig
  refine ⟨rfl, ?_, path, df, time, value, speed, h1, h2, h3, h4, h5,
    rfl, rfl⟩
  intro t ht
  simp at ht
  rcases ht with rfl | rfl <;> rfl

/-- Witness for C7 on the sample table. -/
theorem claim_C7_witness :
    Effect.display figA ∈ (run argvA envA).1 ∧
    (figA.traces.length = 2 ∧
     (∀ t ∈ figA.traces, t.mode = "lines") ∧
     ∃ path df time value speed,
       argvA.get? 1 = some path ∧
       readCsvE envA path = .ok df ∧
       getCol df "time" = .ok time ∧
       getCol df "value" = .ok value ∧
       diffCells value = .ok speed ∧
       figA.traces.get? 0 = some ⟨time, value, "lines"⟩ ∧
       figA.traces.get? 1 =
         some ⟨time.dropLast, speed.map Cell.num, "lines"⟩) :=
  ⟨by decide, claim_C7_two_line_traces argvA envA figA (by decide)⟩

/-- Claim C10: differencing does not modify the loaded table.  The time
and value columns appearing in the displayed traces are exactly the
columns parsed from the file, entry i coming from row i of the file in
the original row order; the rate trace is built from the untouched
columns (its x is the time column minus its last entry, its y the diff of
the untouched value column). -/
theorem claim_C10_table_unmodified (argv : List String) (env : Env)
    (path : String) (f : CsvFile) (fig : Figure)
    (hpath : argv.get? 1 = some path)
    (hfile : lookupStr path env.files = some f)
    (hmem : Effect.display fig ∈ (run argv env).1) :
    ∃ jt jv time value speed,
      f.header.get? jt = some "time" ∧
      f.header.get? jv = some "value" ∧
      time = columnOf f jt ∧
      value = columnOf f jv ∧
      (∀ i, time.get? i =
        (f.rows.get? i).map (fun r => parseCell ((r.get? jt).getD ""))) ∧
      (∀ i, value.get? i =
        (f.rows.get? i).map (fun r => parseCell ((r.get? jv).getD ""))) ∧
      diffCells value = .ok speed ∧
      fig.traces.get? 0 = some ⟨time, value, "lines"⟩ ∧
      fig.traces.get? 1 =
        some ⟨time.dropLast, speed.map Cell.num, "lines"⟩ := by
  obtain ⟨path2, df, time, value, speed, h1, h2, h3, h4, h5, h6, hfig, hrun⟩ :=
    run_display_shape argv env fig hmem
  have hp : path2 = path := Option.some.inj (h1.symm.trans hpath)
  subst hp
  have hdf : df = readCsv f := by
    unfold readCsvE at h2
    simp only [hfile] at h2
    exact (Except.ok.inj h2).symm
  subst hdf
  obtain ⟨jt, hjt, hct⟩ := getCol_readCsv_ok f "time" time h3
  obtain ⟨jv, hjv, hcv⟩ := getCol_readCsv_ok f "value" value h4
  subst hfig
  refine ⟨jt, jv, time, value, speed, hjt, hjv, hct, hcv, ?_, ?_, h5,
    rfl, rfl⟩
  · intro i
    rw [hct]
    exact List.get?_map _ _ _
  · intro i
    rw [hcv]
    exact List.get?_map _ _ _

/-- Witness for C10 on the sample table. -/
theorem claim_C10_witness :
    argvA.get? 1 = some "data.csv" ∧
    lookupStr "data.csv" envA.files = some fileA ∧
    Effect.display figA ∈ (run argvA envA).1 ∧
    ∃ jt jv time value speed,
      fileA.header.get? jt = some "time" ∧
      fileA.header.get? jv = some "value" ∧
      time = columnOf fileA jt ∧
      value = columnOf fileA jv ∧
      (∀ i, time.get? i =
        (fileA.rows.get? i).map
          (fun r => parseCell ((r.get? jt).getD ""))) ∧
      (∀ i, value.get? i =
        (fileA.rows.get? i).map
          (fun r => parseCell ((r.get? jv).getD ""))) ∧
      diffCells value = .ok speed ∧
      figA.traces.get? 0 = some ⟨time, value, "lines"⟩ ∧
      figA.traces.get? 1 =
        some ⟨time.dropLast, speed.map Cell.num, "lines"⟩ :=
  ⟨rfl, rfl, by decide,
   claim_C10_table_unmodified argvA envA "data.csv" fileA figA rfl rfl
     (by decide)⟩

/-- Claim C8: the program consumes exactly one positional argument,
sys.argv[1] (the result depends on nothing else in argv, and no flag
handling exists); it exits with code 0 exactly when the run succeeds,
which happens exactly when the figure display was reached; on any load or
render failure the exit code is nonzero and a nonempty diagnostic goes to
standard error. -/
theorem claim_C8_cli :
    (∀ argv env, run argv env = runPath (argv.get? 1) env) ∧
    (∀ argv argv2 env, argv.get? 1 = argv2.get? 1 →
      run argv env = run argv2 env) ∧
    (∀ argv env, (run argv env).2 = .ok () ↔ exitCode argv env = 0) ∧
    (∀ argv env e, (run argv env).2 = .error e →
      exitCode argv env ≠ 0 ∧ stderrOut argv env = errMsg e ∧
      errMsg e ≠ "") ∧
    (∀ argv env, (run argv env).2 = .ok () ↔
      ∃ path fig,
        run argv env = ([.readFile path, .display fig], .ok ())) := by
  refine ⟨fun argv env => rfl, ?_, ?_, ?_, ?_⟩
  · intro argv argv2 env h
    unfold run
    rw [h]
  · intro argv env
    unfold exitCode
    cases hr : (run argv env).2 with
    | ok u => cases u; simp [hr]
    | error e => simp [hr]
  · intro argv env e h
    refine ⟨by simp [exitCode, h], by simp [stderrOut, h], ?_⟩
    cases e <;> decide
  · intro argv env
    constructor
    · exact fun h => run_ok_shape argv env h
    · rintro ⟨path, fig, hr⟩
      rw [hr]

/-- Witness for C8: extra arguments beyond argv[1] are ignored, and a run
with no argument exits nonzero with a diagnostic. -/
theorem claim_C8_witness :
    run argvA envA = run ["prog", "data.csv", "extra"] envA ∧
    (exitCode [] envA ≠ 0 ∧ stderrOut [] envA = errMsg .indexError ∧
     errMsg PyErr.indexError ≠ "") :=
  ⟨claim_C8_cli.2.1 argvA ["prog", "data.csv", "extra"] envA rfl,
   claim_C8_cli.2.2.2.1 [] envA .indexError rfl⟩

/-- Counterexample to C5 as stated: loading the file whose value column
contains the non-numeric entry "abc" does not raise anything — read_csv
succeeds, and the loaded value column keeps the raw string "abc" (so no
error at loading, and also no coerced placeholder). -/
theorem claim_C5_counterexample :
    readCsvE envC "bad.csv" = .ok (readCsv fileC) ∧
    getCol (readCsv fileC) "value" =
      .ok [.num 10, .str "abc", .num 9] :=
  ⟨by rfl, by rfl⟩

/-- Claim C5 amended: loading a file with a non-numeric entry in the
value column succeeds, keeping the entry as the raw string with no
coercion to a placeholder; the failure surfaces only later, in the
differencing step, which raises a TypeError whenever the value column has
at least two entries of which one is non-numeric; the program then
terminates with a nonzero exit code and a diagnostic. -/
theorem claim_C5_amended :
    (∀ cells : List Cell, (∃ c ∈ cells, c.isNum = false) →
      2 ≤ cells.length → diffCells cells = .error .typeError) ∧
    run argvC envC = ([.readFile "bad.csv"], .error .typeError) ∧
    exitCode argvC envC ≠ 0 ∧ stderrOut argvC envC ≠ "" :=
  ⟨diffCells_str_err, by rfl, by decide, by decide⟩

/-- Witness for C5 at the column [10, "abc"]. -/
theorem claim_C5_witness :
    diffCells [Cell.num 10, Cell.str "abc"] = .error .typeError :=
  claim_C5_amended.1 [Cell.num 10, Cell.str "abc"]
    ⟨Cell.str "abc", by decide, rfl⟩ (by decide)

/-- Counterexample to C6 as stated: loading a file that lacks a value
column does not raise — read_csv succeeds and returns the frame with just
the columns the file does have; only the later attribute access fails. -/
theorem claim_C6_counterexample :
    readCsvE envD "nov.csv" = .ok (readCsv fileD) ∧
    getCol (readCsv fileD) "value" = .error .attributeError :=
  ⟨by rfl, by rfl⟩

/-- Claim C6 amended: a nonexistent path does make the loading step fail
(FileNotFoundError); a missing value column is not detected at loading
but causes a fatal AttributeError at the first column access while the
traces are built; in both cases the failure is fatal and the program
terminates with a nonzero exit code and a diagnostic on standard error. -/
theorem claim_C6_amended :
    (∀ env path, lookupStr path env.files = none →
      runPath (some path) env =
        ([.readFile path], .error .fileNotFound)) ∧
    (∀ env path f, lookupStr path env.files = some f →
      "value" ∉ f.header →
      runPath (some path) env =
        ([.readFile path], .error .attributeError)) ∧
    (∀ argv env e, (run argv env).2 = .error e →
      exitCode argv env ≠ 0 ∧ stderrOut argv env ≠ "") := by
  refine ⟨?_, ?_, ?_⟩
  · intro env path h
    simp [runPath, readCsvE, h]
  · intro env path f h1 h2
    have hv := getCol_value_missing f h2
    simp only [runPath, readCsvE, h1]
    cases h3 : getCol (readCsv f) "time" with
    | error e =>
        have he := getCol_err _ _ _ h3
        subst he
        simp
    | ok time => simp [hv]
  · intro argv env e h
    refine ⟨by simp [exitCode, h], ?_⟩
    simp only [stderrOut, h]
    cases e <;> decide

/-- Witness for C6: a path absent from the filesystem, and the file
without a value column. -/
theorem claim_C6_witness :
    runPath (some "missing.csv") envD =
      ([.readFile "missing.csv"], .error .fileNotFound) ∧
    runPath (some "nov.csv") envD =
      ([.readFile "nov.csv"], .error .attributeError) :=
  ⟨claim_C6_amended.1 envD "missing.csv" (by decide),
   claim_C6_amended.2.1 envD "nov.csv" fileD (by decide) (by decide)⟩

end RabidRobot
